import Mathlib

/-!
Shallow embedding of the persistence and storage-management layer of the
article-library manager: the SQLite-backed article repository
(`src/electron/handlers/articles.ts`, `src/electron/database.ts`) and the
file-storage handlers (`src/electron/handlers/files.ts`).

Database tables are modelled as lists, the singleton id counter as an
`Option Nat`, and the filesystem as an association list from paths to byte
lists.  Time is an abstract tick passed to each mutating handler (the code
uses `datetime('now')` / `new Date()`).  better-sqlite3 transactions are
modelled by `Except`: an error inside a transaction yields the state at the
start of that transaction.
-/

namespace ArticleManager

deriving instance DecidableEq for Except

abbrev Time := Nat

abbrev Bytes := List Nat

/-- One of the six classification-entity tables (Author, Keyword, Subject,
Tag, University, Company): rows `(id, name)` plus the AUTOINCREMENT cursor. -/
structure EntityTable where
  rows : List (Nat × String)
  nextRowId : Nat
deriving DecidableEq

/-- A junction table: rows `(articleId, entityId)` with composite primary key. -/
abbrev Junction := List (String × Nat)

/-- `getOrCreateEntity` from `database.ts`: exact-name lookup, inserting a
fresh row when absent and returning `lastInsertRowid`. -/
def getOrCreateEntity (t : EntityTable) (name : String) : (Nat × String) × EntityTable :=
  match t.rows.find? (fun e => e.2 == name) with
  | some e => (e, t)
  | none => ((t.nextRowId, name), ⟨t.rows ++ [(t.nextRowId, name)], t.nextRowId + 1⟩)

/-- `linkArticleEntity` from `database.ts`: `INSERT OR IGNORE` into the
junction table.  `OR IGNORE` does not apply to foreign keys, so the insert
fails when `articleId` has no `Article` row (`PRAGMA foreign_keys = ON`). -/
def linkArticleEntity (articleIds : List String) (j : Junction) (aid : String)
    (eid : Nat) : Except String Junction :=
  if j.contains (aid, eid) then .ok j
  else if articleIds.contains aid then .ok (j ++ [(aid, eid)])
  else .error "FOREIGN KEY constraint failed"

/-- `clearArticleRelations` from `database.ts`: `DELETE FROM j WHERE articleId = ?`. -/
def clearArticleRelations (j : Junction) (aid : String) : Junction :=
  j.filter (fun p => p.1 != aid)

/-- A row of the `Article` table, with every column of the schema in
`database.ts`.  `read` and `favorite` hold the stored 0/1 integers. -/
structure ArticleRow where
  id : String
  title : String
  abstract : String
  conclusion : String
  year : Int
  date : String
  dateAdded : String
  journal : String
  doi : String
  language : String
  numPages : Int
  researchQuestion : String
  methodology : String
  dataUsed : String
  results : String
  limitations : String
  firstImp : String
  notes : String
  comment : String
  rating : Int
  read : Nat
  favorite : Nat
  fileName : String
  createdAt : Time
  updatedAt : Time
deriving DecidableEq

/-- The `UserSettings` columns consulted by the handlers under verification. -/
structure UserSettings where
  externalStoragePath : Option String
  useExternalStorage : Nat
deriving DecidableEq

/-- The whole SQLite database: the article table, the six entity tables with
their junction tables, the `IdCounter` row for `'article'` (`none` when the
row is absent) and the `UserSettings` singleton row. -/
structure DB where
  articles : List ArticleRow
  authors : EntityTable
  keywords : EntityTable
  subjects : EntityTable
  tags : EntityTable
  universities : EntityTable
  companies : EntityTable
  artAuthors : Junction
  artKeywords : Junction
  artSubjects : Junction
  artTags : Junction
  artUniversities : Junction
  artCompanies : Junction
  idCounter : Option Nat
  settings : Option UserSettings
deriving DecidableEq

/-- The numeric body of `getNextArticleId`'s read-modify-write transaction:
missing counter row means insert `nextId = 2` and return `1`; otherwise
return `nextId` and increment the stored value. -/
def getNextArticleIdNum (c : Option Nat) : Nat × Option Nat :=
  match c with
  | none => (1, some 2)
  | some n => (n, some (n + 1))

/-- `String(nextId).padStart(4, '0')`. -/
def padId (n : Nat) : String :=
  let s := toString n
  String.mk (List.replicate (4 - s.length) '0' ++ s.data)

/-- `getNextArticleId` from `database.ts`: an atomic transaction over the
`IdCounter` row, then zero-padding of the returned value. -/
def getNextArticleId (db : DB) : String × DB :=
  (padId (getNextArticleIdNum db.idCounter).1,
   { db with idCounter := (getNextArticleIdNum db.idCounter).2 })

/-- The payload of `articles:create` (`ArticleFormData` in `types/article.ts`). -/
structure ArticleFormData where
  title : String
  abstract : String
  conclusion : Option String
  year : Int
  date : String
  journal : Option String
  doi : Option String
  language : String
  numPages : Int
  researchQuestion : Option String
  methodology : Option String
  dataUsed : Option String
  results : Option String
  limitations : Option String
  firstImp : Option String
  notes : Option String
  comment : Option String
  rating : Int
  read : Bool
  favorite : Bool
  authors : List String
  keywords : List String
  subjects : List String
  tags : List String
  universities : List String
  companies : List String
deriving DecidableEq

/-- JavaScript `x || ''` on an optional string field. -/
def orEmpty (o : Option String) : String :=
  match o with
  | some s => s
  | none => ""

/-- JavaScript `formData.language || 'English'` (empty string is falsy). -/
def orEnglish (s : String) : String :=
  if s == "" then "English" else s

/-- Character class `[a-zA-Z0-9 ]` of the create handler's file-name regex. -/
def isFileNameKeptChar (c : Char) : Bool :=
  ('a' ≤ c && c ≤ 'z') || ('A' ≤ c && c ≤ 'Z') || ('0' ≤ c && c ≤ '9') || c == ' '

/-- The create handler's derived file-base-name:
`idStr - title.substring(0, 50).replace(non-alphanumeric-non-space, empty)`. -/
def createFileName (idStr title : String) : String :=
  String.mk (idStr.data ++ (" - ").data ++ (title.data.take 50).filter isFileNameKeptChar)

/-- The author names the duplicate-check join sees for one article:
`Author` rows linked to it through `ArticleAuthor`. -/
def authorNamesOf (db : DB) (aid : String) : List String :=
  (db.authors.rows.filter (fun au => db.artAuthors.contains (aid, au.1))).map (fun au => au.2)

/-- The `duplicateCheck` query of `articles:create`: some article has the
given title and at least one of its linked author names is `IN` the
payload's author list (an empty `IN ()` list matches nothing). -/
def duplicateExists (db : DB) (title : String) (authorList : List String) : Bool :=
  db.articles.any (fun a =>
    a.title == title && (authorNamesOf db a.id).any (fun n => authorList.contains n))

/-- One `forEach(name => { getOrCreateEntity; linkArticleEntity })` loop over
an entity-name list, threading the entity table and the junction table. -/
def resolveLinkAll (articleIds : List String) (aid : String) :
    List String → EntityTable → Junction → Except String (EntityTable × Junction)
  | [], t, j => .ok (t, j)
  | n :: rest, t, j =>
    let r := getOrCreateEntity t n
    match linkArticleEntity articleIds j aid r.1.1 with
    | .ok j2 => resolveLinkAll articleIds aid rest r.2 j2
    | .error e => .error e

/-- The article row inserted by `articles:create` (optional fields defaulted
with `|| ''`, language with `|| 'English'`, timestamps from the column
defaults `datetime('now')`). -/
def mkArticleRow (fd : ArticleFormData) (idStr fileName today : String) (now : Time) :
    ArticleRow :=
  { id := idStr, title := fd.title, abstract := fd.abstract,
    conclusion := orEmpty fd.conclusion, year := fd.year, date := fd.date,
    dateAdded := today, journal := orEmpty fd.journal, doi := orEmpty fd.doi,
    language := orEnglish fd.language, numPages := fd.numPages,
    researchQuestion := orEmpty fd.researchQuestion,
    methodology := orEmpty fd.methodology, dataUsed := orEmpty fd.dataUsed,
    results := orEmpty fd.results, limitations := orEmpty fd.limitations,
    firstImp := orEmpty fd.firstImp, notes := orEmpty fd.notes,
    comment := orEmpty fd.comment, rating := fd.rating,
    read := if fd.read then 1 else 0, favorite := if fd.favorite then 1 else 0,
    fileName := fileName, createdAt := now, updatedAt := now }

/-- The `db.transaction(() => { insert article; link entities })` of
`articles:create`.  `insertFails` injects a StoreFailure (engine error, disk
full) thrown inside this transaction; any error rolls the transaction back
to its start state, which the caller `articlesCreate` keeps. -/
def createTxn (db1 : DB) (fd : ArticleFormData) (idStr fileName today : String)
    (now : Time) (insertFails : Bool) : Except String DB :=
  if insertFails then .error "disk I/O error" else
  if db1.articles.any (fun a => a.id == idStr) then
    .error "UNIQUE constraint failed: Article.id" else
  let db2 := { db1 with articles := db1.articles ++ [mkArticleRow fd idStr fileName today now] }
  let ids := db2.articles.map (fun a => a.id)
  match resolveLinkAll ids idStr fd.authors db2.authors db2.artAuthors with
  | .error e => .error e
  | .ok (ta, ja) =>
  match resolveLinkAll ids idStr fd.keywords db2.keywords db2.artKeywords with
  | .error e => .error e
  | .ok (tk, jk) =>
  match resolveLinkAll ids idStr fd.subjects db2.subjects db2.artSubjects with
  | .error e => .error e
  | .ok (ts, js) =>
  match resolveLinkAll ids idStr fd.tags db2.tags db2.artTags with
  | .error e => .error e
  | .ok (tt, jt) =>
  match resolveLinkAll ids idStr fd.universities db2.universities db2.artUniversities with
  | .error e => .error e
  | .ok (tu, ju) =>
  match resolveLinkAll ids idStr fd.companies db2.companies db2.artCompanies with
  | .error e => .error e
  | .ok (tc, jc) =>
  .ok { db2 with
        authors := ta, artAuthors := ja, keywords := tk, artKeywords := jk,
        subjects := ts, artSubjects := js, tags := tt, artTags := jt,
        universities := tu, artUniversities := ju, companies := tc, artCompanies := jc }

/-- The result of `articles:get`: the article row plus its six linked
entity collections (`getArticleWithRelations` in `articles.ts`). -/
structure ArticleAgg where
  row : ArticleRow
  authors : List (Nat × String)
  keywords : List (Nat × String)
  subjects : List (Nat × String)
  tags : List (Nat × String)
  universities : List (Nat × String)
  companies : List (Nat × String)
deriving DecidableEq

/-- One of the six relation queries of `getArticleWithRelations`: entity rows
joined through the junction table for the given article. -/
def relationOf (t : EntityTable) (j : Junction) (aid : String) : List (Nat × String) :=
  t.rows.filter (fun e => j.contains (aid, e.1))

/-- `getArticleWithRelations` from `articles.ts`: `null` when the id has no
row, otherwise the row with its six linked collections. -/
def getArticleWithRelations (db : DB) (aid : String) : Option ArticleAgg :=
  match db.articles.find? (fun a => a.id == aid) with
  | none => none
  | some row =>
    some { row := row,
           authors := relationOf db.authors db.artAuthors aid,
           keywords := relationOf db.keywords db.artKeywords aid,
           subjects := relationOf db.subjects db.artSubjects aid,
           tags := relationOf db.tags db.artTags aid,
           universities := relationOf db.universities db.artUniversities aid,
           companies := relationOf db.companies db.artCompanies aid }

/-- Errors `articles:create` can reject with. -/
inductive CreateErr where
  | duplicateArticle
  | storeFailure (msg : String)
deriving DecidableEq

/-- The `articles:create` handler: duplicate check, then id allocation (its
own committed transaction inside `getNextArticleId`), then the insert+links
transaction.  The returned `DB` is the state after the handler finishes,
whether it succeeded or threw. -/
def articlesCreate (db : DB) (fd : ArticleFormData) (today : String) (now : Time)
    (insertFails : Bool) : Except CreateErr (Option ArticleAgg) × DB :=
  if duplicateExists db fd.title fd.authors then
    (.error .duplicateArticle, db)
  else
    let idStr := (getNextArticleId db).1
    let db1 := (getNextArticleId db).2
    let fileName := createFileName idStr fd.title
    match createTxn db1 fd idStr fileName today now insertFails with
    | .error msg => (.error (.storeFailure msg), db1)
    | .ok db2 => (.ok (getArticleWithRelations db2 idStr), db2)

/-- The partial payload of `articles:update`: a field is written only when
present (`!== undefined`), an entity array present triggers a full replace. -/
structure UpdateFormData where
  title : Option String
  abstract : Option String
  conclusion : Option String
  year : Option Int
  date : Option String
  journal : Option String
  doi : Option String
  language : Option String
  numPages : Option Int
  researchQuestion : Option String
  methodology : Option String
  dataUsed : Option String
  results : Option String
  limitations : Option String
  firstImp : Option String
  notes : Option String
  comment : Option String
  rating : Option Int
  read : Option Bool
  favorite : Option Bool
  authors : Option (List String)
  keywords : Option (List String)
  subjects : Option (List String)
  tags : Option (List String)
  universities : Option (List String)
  companies : Option (List String)
deriving DecidableEq

/-- The update payload with no field present (`update(id, {})`). -/
def emptyUpdate : UpdateFormData :=
  { title := none, abstract := none, conclusion := none, year := none, date := none,
    journal := none, doi := none, language := none, numPages := none,
    researchQuestion := none, methodology := none, dataUsed := none, results := none,
    limitations := none, firstImp := none, notes := none, comment := none,
    rating := none, read := none, favorite := none, authors := none, keywords := none,
    subjects := none, tags := none, universities := none, companies := none }

/-- The dynamic `UPDATE Article SET ... , updatedAt = datetime('now')` of the
update handler applied to one row: present fields overwrite, the update
timestamp is always in the SET list. -/
def applyScalarUpdates (fd : UpdateFormData) (now : Time) (r : ArticleRow) : ArticleRow :=
  { r with
    title := fd.title.getD r.title, abstract := fd.abstract.getD r.abstract,
    conclusion := fd.conclusion.getD r.conclusion, year := fd.year.getD r.year,
    date := fd.date.getD r.date, journal := fd.journal.getD r.journal,
    doi := fd.doi.getD r.doi, language := fd.language.getD r.language,
    numPages := fd.numPages.getD r.numPages,
    researchQuestion := fd.researchQuestion.getD r.researchQuestion,
    methodology := fd.methodology.getD r.methodology,
    dataUsed := fd.dataUsed.getD r.dataUsed, results := fd.results.getD r.results,
    limitations := fd.limitations.getD r.limitations,
    firstImp := fd.firstImp.getD r.firstImp, notes := fd.notes.getD r.notes,
    comment := fd.comment.getD r.comment, rating := fd.rating.getD r.rating,
    read := (match fd.read with | some b => if b then 1 else 0 | none => r.read),
    favorite := (match fd.favorite with | some b => if b then 1 else 0 | none => r.favorite),
    updatedAt := now }

/-- One `if (formData.x !== undefined) { clearArticleRelations; forEach ... }`
block of the update handler. -/
def replaceKind (articleIds : List String) (aid : String) (names : Option (List String))
    (t : EntityTable) (j : Junction) : Except String (EntityTable × Junction) :=
  match names with
  | none => .ok (t, j)
  | some l => resolveLinkAll articleIds aid l t (clearArticleRelations j aid)

/-- The single `db.transaction` of `articles:update`: scalar column updates
(a no-op when the id has no row), then full replacement of each entity-link
set whose field is present. -/
def updateTxn (db : DB) (aid : String) (fd : UpdateFormData) (now : Time) :
    Except String DB :=
  let rows := db.articles.map (fun r => if r.id == aid then applyScalarUpdates fd now r else r)
  let db1 := { db with articles := rows }
  let ids := db1.articles.map (fun a => a.id)
  match replaceKind ids aid fd.authors db1.authors db1.artAuthors with
  | .error e => .error e
  | .ok (ta, ja) =>
  match replaceKind ids aid fd.keywords db1.keywords db1.artKeywords with
  | .error e => .error e
  | .ok (tk, jk) =>
  match replaceKind ids aid fd.subjects db1.subjects db1.artSubjects with
  | .error e => .error e
  | .ok (ts, js) =>
  match replaceKind ids aid fd.tags db1.tags db1.artTags with
  | .error e => .error e
  | .ok (tt, jt) =>
  match replaceKind ids aid fd.universities db1.universities db1.artUniversities with
  | .error e => .error e
  | .ok (tu, ju) =>
  match replaceKind ids aid fd.companies db1.companies db1.artCompanies with
  | .error e => .error e
  | .ok (tc, jc) =>
  .ok { db1 with
        authors := ta, artAuthors := ja, keywords := tk, artKeywords := jk,
        subjects := ts, artSubjects := js, tags := tt, artTags := jt,
        universities := tu, artUniversities := ju, companies := tc, artCompanies := jc }

/-- The only failure `articles:update` reports: a rethrown engine error. -/
inductive UpdateErr where
  | storeFailure (msg : String)
deriving DecidableEq

/-- The `articles:update` handler: one transaction, then
`getArticleWithRelations(id)` (which is `null` for an unknown id).  An error
aborts the transaction and leaves the database unchanged. -/
def articlesUpdate (db : DB) (aid : String) (fd : UpdateFormData) (now : Time) :
    Except UpdateErr (Option ArticleAgg) × DB :=
  match updateTxn db aid fd now with
  | .error msg => (.error (.storeFailure msg), db)
  | .ok db2 => (.ok (getArticleWithRelations db2 aid), db2)

/-- The filesystem: an association list from absolute paths to file bytes. -/
abbrev Fs := List (String × Bytes)

/-- Reading a file: the contents at the first entry for the path, if any. -/
def fsRead (fs : Fs) (p : String) : Option Bytes :=
  match fs.find? (fun e => e.1 == p) with
  | some e => some e.2
  | none => none

/-- `fs.existsSync`. -/
def fsExists (fs : Fs) (p : String) : Bool :=
  (fsRead fs p).isSome

/-- `fs.writeFileSync`: overwrite any entry at the path. -/
def fsWrite (fs : Fs) (p : String) (b : Bytes) : Fs :=
  fs.filter (fun e => e.1 != p) ++ [(p, b)]

/-- `fs.unlinkSync`. -/
def fsUnlink (fs : Fs) (p : String) : Fs :=
  fs.filter (fun e => e.1 != p)

/-- The `if (fs.existsSync(p)) fs.unlinkSync(p)` pattern used by the handlers. -/
def unlinkIfExists (fs : Fs) (p : String) : Fs :=
  if fsExists fs p then fsUnlink fs p else fs

/-- `path.join` for the separator-free names the handlers build. -/
def pathJoin (a b : String) : String :=
  a ++ "/" ++ b

/-- JavaScript `.trim()` on the character list of a string. -/
def trimChars (l : List Char) : List Char :=
  ((l.dropWhile Char.isWhitespace).reverse.dropWhile Char.isWhitespace).reverse

/-- The per-character step of `makeName`'s sanitization: forbidden Windows
filename characters become a dash, underscores become spaces. -/
def sanitizeChar (c : Char) : Char :=
  if ['<', '>', ':', '\"', '/', '\\', '|', '?', '*'].contains c then '-'
  else if c == '_' then ' ' else c

/-- `makeName` from `files.ts`: `"{id} - {sanitized title}"`, trimmed and
truncated to 200 characters (then trimmed again). -/
def makeName (id title : String) : String :=
  let cleanTitle := trimChars (title.data.map sanitizeChar)
  let baseName := id.data ++ (" - ").data ++ cleanTitle
  if baseName.length > 200 then String.mk (trimChars (baseName.take 200))
  else String.mk baseName

/-- The result of `getExternalStorageSettings` in `files.ts`:
`Boolean(useExternalStorage)` and `externalStoragePath || ''`. -/
structure ExternalSettings where
  enabled : Bool
  path : String
deriving DecidableEq

/-- `getExternalStorageSettings` from `files.ts` (a missing settings row
reads as disabled). -/
def getExternalStorageSettings (db : DB) : ExternalSettings :=
  match db.settings with
  | some s => { enabled := s.useExternalStorage != 0, path := orEmpty s.externalStoragePath }
  | none => { enabled := false, path := "" }

/-- `copyToExternalIfEnabled` from `files.ts`: copy the just-written primary
file into the external folder when mirroring is enabled.  The whole body is
inside try/catch, so a failing copy (`copyFails`, or a missing source)
leaves the filesystem as is and never propagates an error. -/
def copyToExternalIfEnabled (db : DB) (fs : Fs) (internalPath subdir fileName : String)
    (copyFails : Bool) : Fs :=
  if !(getExternalStorageSettings db).enabled || (getExternalStorageSettings db).path == ""
  then fs
  else if copyFails then fs
  else
    match fsRead fs internalPath with
    | some b =>
      fsWrite fs (pathJoin (pathJoin (getExternalStorageSettings db).path subdir) fileName) b
    | none => fs

/-- The `files:uploadPdf` handler: write the PDF bytes under the current
naming scheme `makeName(id, title) + ".pdf"` in the primary `pdfs` folder,
mirror to external storage if enabled (mirror failure swallowed), and return
the stored file name.  A primary-write fault would be rethrown, but the
mirror fault injected here cannot make the handler fail. -/
def uploadPdf (root : String) (db : DB) (fs : Fs) (aid title : String) (bytes : Bytes)
    (copyFails : Bool) : String × Fs :=
  let pdfFileName := makeName aid title ++ ".pdf"
  let pdfPath := pathJoin (pathJoin root "pdfs") pdfFileName
  let fs1 := fsWrite fs pdfPath bytes
  (pdfFileName, copyToExternalIfEnabled db fs1 pdfPath "pdfs" pdfFileName copyFails)

/-- `getArticleTitle` from `files.ts`: `SELECT title FROM Article WHERE id = ?`,
with `result?.title || null` turning an empty title into `null`. -/
def getArticleTitle (db : DB) (aid : String) : Option String :=
  match db.articles.find? (fun a => a.id == aid) with
  | some a => if a.title == "" then none else some a.title
  | none => none

/-- `findPdfFile` from `files.ts`: try the current-scheme name computed from
the title stored in the database, then the legacy bare-id name, else `null`. -/
def findPdfFile (root : String) (db : DB) (fs : Fs) (aid : String) : Option String :=
  let pdfDir := pathJoin root "pdfs"
  let fromTitle :=
    match getArticleTitle db aid with
    | some t =>
      let newPath := pathJoin pdfDir (makeName aid t ++ ".pdf")
      if fsExists fs newPath then some newPath else none
    | none => none
  match fromTitle with
  | some p => some p
  | none =>
    let oldPath := pathJoin pdfDir (aid ++ ".pdf")
    if fsExists fs oldPath then some oldPath else none

/-- The external folder the delete handler uses, per its truthiness test
`settings?.useExternalStorage && settings?.externalStoragePath`. -/
def externalDirFor (db : DB) : Option String :=
  match db.settings with
  | some s =>
    if s.useExternalStorage != 0 then
      match s.externalStoragePath with
      | some p => if p != "" then some p else none
      | none => none
    else none
  | none => none

/-- The file-removal step of `articles:delete`: unlink the legacy bare-id
named PDF and note at the primary root and, when external storage is
configured, at the external root; each unlink is guarded by `existsSync`. -/
def deleteFilesForArticle (root : String) (db : DB) (fs : Fs) (aid : String) : Fs :=
  let fs1 := unlinkIfExists fs (pathJoin (pathJoin root "pdfs") (aid ++ ".pdf"))
  let fs2 := unlinkIfExists fs1 (pathJoin (pathJoin root "notes") (aid ++ ".docx"))
  match externalDirFor db with
  | none => fs2
  | some ext =>
    let fs3 := unlinkIfExists fs2 (pathJoin (pathJoin ext "pdfs") (aid ++ ".pdf"))
    unlinkIfExists fs3 (pathJoin (pathJoin ext "notes") (aid ++ ".docx"))

/-- The database side of `articles:delete`: `DELETE FROM Article WHERE id = ?`,
with `ON DELETE CASCADE` removing the junction rows of all six kinds. -/
def cascadeDeleteRow (db : DB) (aid : String) : DB :=
  { db with
    articles := db.articles.filter (fun a => a.id != aid),
    artAuthors := clearArticleRelations db.artAuthors aid,
    artKeywords := clearArticleRelations db.artKeywords aid,
    artSubjects := clearArticleRelations db.artSubjects aid,
    artTags := clearArticleRelations db.artTags aid,
    artUniversities := clearArticleRelations db.artUniversities aid,
    artCompanies := clearArticleRelations db.artCompanies aid }

/-- The `articles:delete` handler: remove the legacy-named files, then the
article row (cascading its junction rows). -/
def articlesDelete (root : String) (db : DB) (fs : Fs) (aid : String) : DB × Fs :=
  (cascadeDeleteRow db aid, deleteFilesForArticle root db fs aid)

/-- The four legacy bare-id file paths `articles:delete` targets (two when no
external folder is configured). -/
def legacyFilePaths (root : String) (db : DB) (aid : String) : List String :=
  [pathJoin (pathJoin root "pdfs") (aid ++ ".pdf"),
   pathJoin (pathJoin root "notes") (aid ++ ".docx")] ++
  (match externalDirFor db with
   | some ext => [pathJoin (pathJoin ext "pdfs") (aid ++ ".pdf"),
                  pathJoin (pathJoin ext "notes") (aid ++ ".docx")]
   | none => [])

/-- A caller-visible operation against the article repository, for stating
allocator properties over operation sequences: a create call (with its
payload, clock inputs and a possible mid-transaction store failure) or a
delete call. -/
inductive Op where
  | create (fd : ArticleFormData) (today : String) (now : Time) (insertFails : Bool)
  | delete (aid : String)

/-- The database after one operation. -/
def applyOp (db : DB) : Op → DB
  | .create fd today now insertFails => (articlesCreate db fd today now insertFails).2
  | .delete aid => cascadeDeleteRow db aid

/-- The identifiers the allocator returns during one operation: a create
call that passes the duplicate check allocates exactly one id; a delete
call allocates none. -/
def opAllocs (db : DB) : Op → List String
  | .create fd _ _ _ =>
    if duplicateExists db fd.title fd.authors then [] else [(getNextArticleId db).1]
  | .delete _ => []

/-- All identifiers the allocator returns across a sequence of operations. -/
def runAllocs (db : DB) : List Op → List String
  | [] => []
  | op :: rest => opAllocs db op ++ runAllocs (applyOp db op) rest

/-- Numeric counterpart of `opAllocs`: the pre-padding counter values. -/
def opAllocNums (db : DB) : Op → List Nat
  | .create fd _ _ _ =>
    if duplicateExists db fd.title fd.authors then []
    else [(getNextArticleIdNum db.idCounter).1]
  | .delete _ => []

/-- Numeric counterpart of `runAllocs`. -/
def runAllocNums (db : DB) : List Op → List Nat
  | [] => []
  | op :: rest => opAllocNums db op ++ runAllocNums (applyOp db op) rest

/-- Decimal decoding of an identifier string, used to compare identifiers by
their numeric value. -/
def decodeStr (s : String) : Nat :=
  s.data.foldl (fun a c => a * 10 + (c.toNat - 48)) 0

/-- A lower bound on every identifier value the allocator can return from a
given counter state: `1` when the counter row is missing, the stored value
otherwise. -/
def counterLow (c : Option Nat) : Nat :=
  match c with
  | none => 1
  | some n => n

/-- Decimal accumulator used to relate `Nat.toDigits` back to the number it
renders: push the digits of `n` onto the accumulator `a`. -/
def pushDigits (a n : Nat) : Nat :=
  if n < 10 then a * 10 + n
  else pushDigits a (n / 10) * 10 + n % 10
termination_by n
decreasing_by
  exact Nat.div_lt_self (by omega) (by omega)

/-- A fresh classification-entity table. -/
def emptyTable : EntityTable :=
  ⟨[], 1⟩

/-- The database right after `initializeDatabase` on a fresh library: empty
tables, the id counter seeded to `1`, no settings row. -/
def emptyDB : DB :=
  { articles := [], authors := emptyTable, keywords := emptyTable,
    subjects := emptyTable, tags := emptyTable, universities := emptyTable,
    companies := emptyTable, artAuthors := [], artKeywords := [], artSubjects := [],
    artTags := [], artUniversities := [], artCompanies := [],
    idCounter := some 1, settings := none }

/-- A concrete create payload: title "Foo Bar" by "A. Doe". -/
def fdFooBar : ArticleFormData :=
  { title := "Foo Bar", abstract := "An abstract", conclusion := none, year := 2024,
    date := "2024-01-01", journal := none, doi := none, language := "English",
    numPages := 10, researchQuestion := none, methodology := none, dataUsed := none,
    results := none, limitations := none, firstImp := none, notes := none,
    comment := none, rating := 3, read := false, favorite := false,
    authors := ["A. Doe"], keywords := [], subjects := [], tags := [],
    universities := [], companies := [] }

/-- A concrete create payload with two authors. -/
def fdTwoAuth : ArticleFormData :=
  { fdFooBar with title := "Shared Title", authors := ["A. Doe", "B. Roe"] }

/-- The same title and author set as `fdTwoAuth`, authors listed in the
other order. -/
def fdTwoAuthSwapped : ArticleFormData :=
  { fdTwoAuth with authors := ["B. Roe", "A. Doe"] }

/-- Same title as `fdTwoAuth` but a different author set that overlaps it in
exactly one name. -/
def fdOverlap : ArticleFormData :=
  { fdTwoAuth with authors := ["B. Roe", "C. Poe"] }

/-- A concrete create payload with an empty author list. -/
def fdNoAuthors : ArticleFormData :=
  { fdFooBar with title := "Untitled Study", authors := [] }

/-- The database after creating `fdFooBar` in a fresh library: article "0001"
titled "Foo Bar" by "A. Doe". -/
def dbFooBar : DB :=
  (articlesCreate emptyDB fdFooBar "2026-01-01" 0 false).2

/-- The database after creating `fdTwoAuth` in a fresh library. -/
def dbTwoAuth : DB :=
  (articlesCreate emptyDB fdTwoAuth "2026-01-01" 0 false).2

/-- `dbFooBar` with external mirroring enabled towards folder "ext". -/
def dbFooBarExt : DB :=
  { dbFooBar with settings := some { externalStoragePath := some "ext", useExternalStorage := 1 } }

/-- Ten bytes of PDF content, as in the spec's deletion scenario. -/
def tenBytes : Bytes :=
  [1, 2, 3, 4, 5, 6, 7, 8, 9, 10]

/-- The filesystem after storing `tenBytes` as the PDF of article "0001"
titled "Foo Bar" under primary root "approot". -/
def fsFooBar : Fs :=
  (uploadPdf "approot" dbFooBar [] "0001" "Foo Bar" tenBytes false).2

/-- An update payload that only renames the article. -/
def updNewTitle : UpdateFormData :=
  { emptyUpdate with title := some "Updated Title" }

/-- `dbFooBar` after renaming article "0001" to "Updated Title". -/
def dbNewTitle : DB :=
  (articlesUpdate dbFooBar "0001" updNewTitle 7).2

/-- An update payload that only replaces the author links. -/
def updAuthorsNew : UpdateFormData :=
  { emptyUpdate with authors := some ["X. New"] }

theorem find?_key_filter_ne (fs : Fs) (p q : String) (h : q ≠ p) :
    (fs.filter (fun e => e.1 != p)).find? (fun e => e.1 == q)
      = fs.find? (fun e => e.1 == q) := by
  induction fs with
  | nil => rfl
  | cons e tl ih =>
    by_cases h1 : e.1 = p
    · have hk : (e.1 != p) = false := by simp [h1]
      have hq : (e.1 == q) = false := by simp [h1]; exact fun hh => h hh.symm
      simp [List.filter_cons, hk, List.find?_cons, hq, ih]
    · have hk : (e.1 != p) = true := by simp [h1]
      by_cases h2 : e.1 = q
      · simp [List.filter_cons, hk, List.find?_cons, h2, h]
      · have hq : (e.1 == q) = false := by simp [h2]
        simp [List.filter_cons, hk, List.find?_cons, hq, ih]

theorem fsRead_write (fs : Fs) (p : String) (b : Bytes) (q : String) :
    fsRead (fsWrite fs p b) q = if q = p then some b else fsRead fs q := by
  unfold fsRead fsWrite
  rw [List.find?_append]
  by_cases h : q = p
  · subst h
    have h1 : (fs.filter (fun e => e.1 != q)).find? (fun e => e.1 == q) = none := by
      rw [List.find?_eq_none]
      intro x hx
      have hm := (List.mem_filter.mp hx).2
      simp only [bne_iff_ne, ne_eq] at hm
      simp [hm]
    simp [h1, List.find?]
  · have h2 : List.find? (fun e => e.1 == q) [(p, b)] = none := by
      have : ((p, b).1 == q) = false := by simp; exact fun hh => h hh.symm
      simp [List.find?, this]
    rw [find?_key_filter_ne fs p q h, h2]
    simp [h]

theorem fsRead_unlink (fs : Fs) (p q : String) :
    fsRead (fsUnlink fs p) q = if q = p then none else fsRead fs q := by
  unfold fsRead fsUnlink
  by_cases h : q = p
  · subst h
    have h1 : (fs.filter (fun e => e.1 != q)).find? (fun e => e.1 == q) = none := by
      rw [List.find?_eq_none]
      intro x hx
      have hm := (List.mem_filter.mp hx).2
      simp only [bne_iff_ne, ne_eq] at hm
      simp [hm]
    simp [h1]
  · rw [find?_key_filter_ne fs p q h]
    simp [h]

theorem fsRead_unlinkIfExists (fs : Fs) (p q : String) :
    fsRead (unlinkIfExists fs p) q = if q = p then none else fsRead fs q := by
  unfold unlinkIfExists
  by_cases hex : fsExists fs p
  · simp [hex, fsRead_unlink]
  · have hn : fsRead fs p = none := by
      cases hr : fsRead fs p with
      | none => rfl
      | some b => simp [fsExists, hr] at hex
    by_cases h : q = p
    · subst h
      simp [hex, hn]
    · simp [hex, h]

theorem fsRead_copyToExternal_internal (db : DB) (fs : Fs)
    (ip subdir n : String) (cf : Bool) :
    fsRead (copyToExternalIfEnabled db fs ip subdir n cf) ip = fsRead fs ip := by
  unfold copyToExternalIfEnabled
  split
  · rfl
  · split
    · rfl
    · cases hr : fsRead fs ip with
      | none => simp [hr]
      | some b =>
        simp only [hr]
        rw [fsRead_write]
        split <;> simp [hr]

/-- C3 (amended): the file-removal step of an orchestrated article deletion
removes exactly the legacy bare-id named files `{id}.pdf` and `{id}.docx`
at the primary root and, when external storage is configured, at the
external root, no-oping silently when they are absent; every other file on
disk (in particular a PDF stored under the current `{id} - {title}` scheme)
is left untouched.  The database row is removed, so a subsequent get
returns not-found. -/
theorem c3_delete_removes_only_legacy_files (root : String) (db : DB) (fs : Fs)
    (aid : String) :
    (∀ p, fsRead (articlesDelete root db fs aid).2 p =
        if p ∈ legacyFilePaths root db aid then none else fsRead fs p)
    ∧ getArticleWithRelations (articlesDelete root db fs aid).1 aid = none := by
  constructor
  · intro p
    show fsRead (deleteFilesForArticle root db fs aid) p = _
    unfold deleteFilesForArticle legacyFilePaths
    cases hext : externalDirFor db with
    | none =>
      simp only [hext]
      rw [fsRead_unlinkIfExists, fsRead_unlinkIfExists]
      by_cases h1 : p = pathJoin (pathJoin root "pdfs") (aid ++ ".pdf") <;>
        by_cases h2 : p = pathJoin (pathJoin root "notes") (aid ++ ".docx") <;>
        simp [h1, h2]
    | some ext =>
      simp only [hext]
      rw [fsRead_unlinkIfExists, fsRead_unlinkIfExists, fsRead_unlinkIfExists,
        fsRead_unlinkIfExists]
      by_cases h1 : p = pathJoin (pathJoin root "pdfs") (aid ++ ".pdf") <;>
        by_cases h2 : p = pathJoin (pathJoin root "notes") (aid ++ ".docx") <;>
        by_cases h3 : p = pathJoin (pathJoin ext "pdfs") (aid ++ ".pdf") <;>
        by_cases h4 : p = pathJoin (pathJoin ext "notes") (aid ++ ".docx") <;>
        simp [h1, h2, h3, h4]
  · show getArticleWithRelations (cascadeDeleteRow db aid) aid = none
    have hnone : ((cascadeDeleteRow db aid).articles).find? (fun a => a.id == aid)
        = none := by
      rw [List.find?_eq_none]
      intro x hx
      have hm := (List.mem_filter.mp hx).2
      simp only [bne_iff_ne, ne_eq] at hm
      simp [hm]
    unfold getArticleWithRelations
    rw [hnone]

/-- C3 (counterexample): the spec's own scenario fails on the code.  Create
article "0001" titled "Foo Bar", store a ten-byte PDF (written under the
current naming scheme "0001 - Foo Bar.pdf"), delete the article: the delete
handler only unlinks the legacy name "0001.pdf", so the stored PDF still
exists at the primary location after the orchestrated delete. -/
theorem c3_current_scheme_pdf_survives_delete :
    fsExists (articlesDelete "approot" dbFooBar fsFooBar "0001").2
        (pathJoin (pathJoin "approot" "pdfs") (makeName "0001" "Foo Bar" ++ ".pdf")) = true
    ∧ getArticleWithRelations (articlesDelete "approot" dbFooBar fsFooBar "0001").1
        "0001" = none := by
  decide

/-- C6: storing a PDF for an article and then locating it by id returns the
primary current-scheme path, whose contents are exactly the stored bytes —
whatever file layout (legacy-only, current-only, or any other) existed
before the store, and whether or not the external mirror copy is attempted.
The hypothesis states that the title passed to store is the article's title
as stored in the database, which is what `findPdfFile` consults. -/
theorem c6_store_then_locate_roundtrip (root : String) (db : DB) (fs : Fs)
    (aid title : String) (bytes : Bytes) (copyFails : Bool)
    (h : getArticleTitle db aid = some title) :
    findPdfFile root db (uploadPdf root db fs aid title bytes copyFails).2 aid
      = some (pathJoin (pathJoin root "pdfs")
          (uploadPdf root db fs aid title bytes copyFails).1)
    ∧ fsRead (uploadPdf root db fs aid title bytes copyFails).2
        (pathJoin (pathJoin root "pdfs") (makeName aid title ++ ".pdf"))
      = some bytes := by
  have hread : fsRead (uploadPdf root db fs aid title bytes copyFails).2
      (pathJoin (pathJoin root "pdfs") (makeName aid title ++ ".pdf")) = some bytes := by
    show fsRead (copyToExternalIfEnabled db _ _ "pdfs" _ copyFails) _ = some bytes
    rw [fsRead_copyToExternal_internal, fsRead_write]
    simp
  refine ⟨?_, hread⟩
  have hex : fsExists (uploadPdf root db fs aid title bytes copyFails).2
      (pathJoin (pathJoin root "pdfs") (makeName aid title ++ ".pdf")) = true := by
    simp [fsExists, hread]
  have hex2 : fsExists
      (copyToExternalIfEnabled db
        (fsWrite fs (pathJoin (pathJoin root "pdfs") (makeName aid title ++ ".pdf")) bytes)
        (pathJoin (pathJoin root "pdfs") (makeName aid title ++ ".pdf")) "pdfs"
        (makeName aid title ++ ".pdf") copyFails)
      (pathJoin (pathJoin root "pdfs") (makeName aid title ++ ".pdf")) = true := hex
  simp [findPdfFile, h, hex2, uploadPdf]

/-- C6 (witness): concrete round trip through store and locate on the
library holding article "0001" "Foo Bar". -/
theorem c6_witness :
    findPdfFile "R" dbFooBar (uploadPdf "R" dbFooBar [] "0001" "Foo Bar" tenBytes false).2
        "0001"
      = some (pathJoin (pathJoin "R" "pdfs")
          (uploadPdf "R" dbFooBar [] "0001" "Foo Bar" tenBytes false).1)
    ∧ fsRead (uploadPdf "R" dbFooBar [] "0001" "Foo Bar" tenBytes false).2
        (pathJoin (pathJoin "R" "pdfs") (makeName "0001" "Foo Bar" ++ ".pdf"))
      = some tenBytes :=
  c6_store_then_locate_roundtrip "R" dbFooBar [] "0001" "Foo Bar" tenBytes false
    (by decide)

/-- C8: when external mirroring is enabled and the mirror copy step fails,
the failure is swallowed: the handler returns the same stored file name as
in the successful-mirror case (it is reported successful, no exception
escapes the catch), and the resulting filesystem is exactly the primary
write of the bytes — untouched by the failed mirror step. -/
theorem c8_mirror_failure_swallowed (root : String) (db : DB) (fs : Fs)
    (aid title : String) (bytes : Bytes)
    (_h : (getExternalStorageSettings db).enabled = true) :
    uploadPdf root db fs aid title bytes true
      = ((uploadPdf root db fs aid title bytes false).1,
         fsWrite fs (pathJoin (pathJoin root "pdfs") (makeName aid title ++ ".pdf"))
           bytes) := by
  unfold uploadPdf copyToExternalIfEnabled
  simp

/-- C8 (witness): mirroring enabled towards "ext", mirror copy failing. -/
theorem c8_witness :
    uploadPdf "R" dbFooBarExt [] "0001" "Foo Bar" tenBytes true
      = ((uploadPdf "R" dbFooBarExt [] "0001" "Foo Bar" tenBytes false).1,
         fsWrite [] (pathJoin (pathJoin "R" "pdfs") (makeName "0001" "Foo Bar" ++ ".pdf"))
           tenBytes) :=
  c8_mirror_failure_swallowed "R" dbFooBarExt [] "0001" "Foo Bar" tenBytes (by decide)

/-- C10: locate consults only the current-scheme name computed from the
title currently stored in the database and the legacy bare-id name; a file
stored under the current scheme with an earlier title is therefore missed:
locate returns not-found even though that file still exists on disk. -/
theorem c10_stale_title_lookup_misses (root : String) (db : DB) (fs : Fs)
    (aid tOld tNew : String)
    (h1 : getArticleTitle db aid = some tNew)
    (h2 : fsExists fs (pathJoin (pathJoin root "pdfs") (makeName aid tOld ++ ".pdf")) = true)
    (h3 : fsExists fs (pathJoin (pathJoin root "pdfs") (makeName aid tNew ++ ".pdf")) = false)
    (h4 : fsExists fs (pathJoin (pathJoin root "pdfs") (aid ++ ".pdf")) = false) :
    findPdfFile root db fs aid = none
    ∧ fsExists fs (pathJoin (pathJoin root "pdfs") (makeName aid tOld ++ ".pdf")) = true := by
  refine ⟨?_, h2⟩
  simp [findPdfFile, h1, h3, h4]

/-- C10 (witness): store the PDF while the title is "Foo Bar", rename the
article to "Updated Title", then locate: not-found, though the file exists. -/
theorem c10_witness :
    findPdfFile "approot" dbNewTitle fsFooBar "0001" = none
    ∧ fsExists fsFooBar
        (pathJoin (pathJoin "approot" "pdfs") (makeName "0001" "Foo Bar" ++ ".pdf"))
      = true :=
  c10_stale_title_lookup_misses "approot" dbNewTitle fsFooBar "0001" "Foo Bar"
    "Updated Title" (by decide) (by decide) (by decide) (by decide)

theorem find?_map_article_upd (l : List ArticleRow) (aid : String) (now : Time) :
    (l.map (fun r => if r.id == aid then { r with updatedAt := now } else r)).find?
        (fun a => a.id == aid)
      = (l.find? (fun a => a.id == aid)).map
          (fun r => if r.id == aid then { r with updatedAt := now } else r) := by
  have hp : ((fun a : ArticleRow => a.id == aid) ∘
      (fun r : ArticleRow => if r.id == aid then { r with updatedAt := now } else r))
      = (fun a : ArticleRow => a.id == aid) := by
    funext r
    by_cases h2 : r.id = aid <;> simp [Function.comp, h2]
  rw [List.find?_map, hp]

/-- C7: an empty-payload update changes only the last-update timestamp.  The
handler's result equals the prior get with just `row.updatedAt` replaced by
the current clock (all scalar columns and all six linked collections
byte-for-byte unchanged), and the stored state changes only in the matching
row's `updatedAt` column. -/
theorem c7_empty_update_refreshes_only_timestamp (db : DB) (aid : String) (now : Time) :
    articlesUpdate db aid emptyUpdate now
      = (Except.ok ((getArticleWithRelations db aid).map
            (fun g => { g with row := { g.row with updatedAt := now } })),
         { db with
           articles := db.articles.map
             (fun r => if r.id == aid then { r with updatedAt := now } else r) }) := by
  have key : articlesUpdate db aid emptyUpdate now
      = (Except.ok (getArticleWithRelations
          { db with
            articles := db.articles.map
              (fun r => if r.id == aid then { r with updatedAt := now } else r) } aid),
         { db with
           articles := db.articles.map
             (fun r => if r.id == aid then { r with updatedAt := now } else r) }) := rfl
  rw [key]
  refine Prod.ext ?_ rfl
  show Except.ok (getArticleWithRelations
      { db with
        articles := db.articles.map
          (fun r => if r.id == aid then { r with updatedAt := now } else r) } aid) = _
  congr 1
  show (match (db.articles.map
      (fun r => if r.id == aid then { r with updatedAt := now } else r)).find?
        (fun a => a.id == aid) with
    | none => (none : Option ArticleAgg)
    | some row =>
      some { row := row,
             authors := relationOf db.authors db.artAuthors aid,
             keywords := relationOf db.keywords db.artKeywords aid,
             subjects := relationOf db.subjects db.artSubjects aid,
             tags := relationOf db.tags db.artTags aid,
             universities := relationOf db.universities db.artUniversities aid,
             companies := relationOf db.companies db.artCompanies aid }) = _
  rw [find?_map_article_upd]
  unfold getArticleWithRelations
  cases hf : db.articles.find? (fun a => a.id == aid) with
  | none => rfl
  | some r =>
    have hb := List.find?_some hf
    have h2 : r.id = aid := by simpa using hb
    simp [h2]

theorem replaceKind_of_empty (ids : List String) (aid : String)
    (o : Option (List String)) (t : EntityTable) (j : Junction) (h : o.getD [] = []) :
    replaceKind ids aid o t j
      = .ok (t, if o.isSome then clearArticleRelations j aid else j) := by
  cases o with
  | none => rfl
  | some l =>
    have hl : l = [] := by simpa using h
    subst hl
    rfl

/-- C5 (amended): updating a nonexistent id returns the same distinct
not-found signal (`null`) that get uses — not an exception — provided every
entity-name array present in the payload is empty.  (With a nonempty entity
array the handler instead throws a generic foreign-key error; see the
counterexample.) -/
theorem c5_update_missing_id_returns_null (db : DB) (aid : String)
    (fd : UpdateFormData) (now : Time)
    (hid : db.articles.all (fun a => a.id != aid) = true)
    (hA : fd.authors.getD [] = []) (hK : fd.keywords.getD [] = [])
    (hS : fd.subjects.getD [] = []) (hT : fd.tags.getD [] = [])
    (hU : fd.universities.getD [] = []) (hC : fd.companies.getD [] = []) :
    (articlesUpdate db aid fd now).1 = .ok none := by
  have hnone : ((db.articles.map
      (fun r => if r.id == aid then applyScalarUpdates fd now r else r)).find?
        (fun a => a.id == aid)) = none := by
    rw [List.find?_eq_none]
    intro x hx
    rcases List.mem_map.mp hx with ⟨r, hrmem, rfl⟩
    have hne := List.all_eq_true.mp hid r hrmem
    simp only [bne_iff_ne, ne_eq] at hne
    simp [hne]
  unfold articlesUpdate updateTxn
  simp only [replaceKind_of_empty _ _ _ _ _ hA, replaceKind_of_empty _ _ _ _ _ hK,
    replaceKind_of_empty _ _ _ _ _ hS, replaceKind_of_empty _ _ _ _ _ hT,
    replaceKind_of_empty _ _ _ _ _ hU, replaceKind_of_empty _ _ _ _ _ hC]
  unfold getArticleWithRelations
  dsimp only
  rw [hnone]

/-- C5 (witness): updating the unknown id "9999" with a scalar-only payload
on the one-article library returns the null not-found outcome. -/
theorem c5_witness :
    (articlesUpdate dbFooBar "9999" emptyUpdate 5).1 = .ok none :=
  c5_update_missing_id_returns_null dbFooBar "9999" emptyUpdate 5 (by decide)
    (by decide) (by decide) (by decide) (by decide) (by decide) (by decide)

/-- C5 (counterexample): the claim says an update of a nonexistent id fails
with a NotFound outcome distinct from a generic failure.  But updating the
unknown id "9999" with a payload carrying one author name throws the generic
foreign-key store error — not the distinct not-found outcome — because the
junction insert fires against the missing article row. -/
theorem c5_counterexample_generic_fk_error :
    articlesUpdate dbFooBar "9999" updAuthorsNew 5
      = (.error (.storeFailure "FOREIGN KEY constraint failed"), dbFooBar) := by
  decide

theorem duplicateExists_of_common_author {db : DB} {a : ArticleRow} {title : String}
    {al : List String} {n : String} (ha : a ∈ db.articles) (ht : a.title = title)
    (hn1 : n ∈ authorNamesOf db a.id) (hn2 : n ∈ al) :
    duplicateExists db title al = true := by
  unfold duplicateExists
  rw [List.any_eq_true]
  refine ⟨a, ha, ?_⟩
  rw [Bool.and_eq_true]
  refine ⟨beq_iff_eq.mpr ht, ?_⟩
  rw [List.any_eq_true]
  refine ⟨n, hn1, ?_⟩
  simpa [List.contains] using hn2

/-- C4 (amended): creating an article whose title equals an existing
article's title and whose nonempty author list denotes the same name set as
that article's linked authors (in any order) fails with the
DuplicateArticle error, and the database is returned unchanged — the
rejection happens before the id allocation and before any write.  (With an
empty author set the duplicate is not detected; see the counterexample.) -/
theorem c4_duplicate_title_and_author_set_rejected (db : DB) (fd : ArticleFormData)
    (today : String) (now : Time) (insertFails : Bool) (a : ArticleRow)
    (ha : a ∈ db.articles) (ht : a.title = fd.title)
    (hsub : ∀ n ∈ fd.authors, n ∈ authorNamesOf db a.id)
    (_hsup : ∀ n ∈ authorNamesOf db a.id, n ∈ fd.authors)
    (hne : fd.authors ≠ []) :
    articlesCreate db fd today now insertFails = (.error .duplicateArticle, db) := by
  obtain ⟨n, hn⟩ := List.exists_mem_of_ne_nil _ hne
  have hdup := duplicateExists_of_common_author ha ht (hsub n hn) hn
  simp [articlesCreate, hdup]

/-- C4 (witness): article "Shared Title" by {"A. Doe", "B. Roe"} exists;
creating "Shared Title" with the authors listed in the other order is
rejected as a duplicate with the database unchanged. -/
theorem c4_witness :
    articlesCreate dbTwoAuth fdTwoAuthSwapped "2026-01-02" 1 false
      = (.error .duplicateArticle, dbTwoAuth) :=
  c4_duplicate_title_and_author_set_rejected dbTwoAuth fdTwoAuthSwapped "2026-01-02" 1
    false (mkArticleRow fdTwoAuth "0001" (createFileName "0001" "Shared Title")
      "2026-01-01" 0)
    (by decide) (by decide) (by decide) (by decide) (by decide)

/-- C4 (counterexample): with an empty author set the duplicate guard never
fires, because the SQL join over `ArticleAuthor` with an empty `IN ()` list
matches nothing.  Creating "Untitled Study" with no authors twice: the
second create does not fail with DuplicateArticle even though an article
with the same title and the same (empty) author set already exists. -/
theorem c4_counterexample_empty_author_set :
    ((articlesCreate (articlesCreate emptyDB fdNoAuthors "2026-01-01" 0 false).2
        fdNoAuthors "2026-01-02" 1 false).1 ≠ Except.error CreateErr.duplicateArticle)
    ∧ (articlesCreate emptyDB fdNoAuthors "2026-01-01" 0 false).2.articles.map
        (fun a => a.title) = ["Untitled Study"]
    ∧ authorNamesOf (articlesCreate emptyDB fdNoAuthors "2026-01-01" 0 false).2 "0001"
        = [] := by
  decide

/-- C9: the duplicate guard fires whenever some existing article has the
same title and shares at least one author name with the payload — a full
author-set match is not required. -/
theorem c9_title_and_single_author_overlap_rejected (db : DB) (fd : ArticleFormData)
    (today : String) (now : Time) (insertFails : Bool) (a : ArticleRow) (n : String)
    (ha : a ∈ db.articles) (ht : a.title = fd.title)
    (hn1 : n ∈ authorNamesOf db a.id) (hn2 : n ∈ fd.authors) :
    articlesCreate db fd today now insertFails = (.error .duplicateArticle, db) := by
  have hdup := duplicateExists_of_common_author ha ht hn1 hn2
  simp [articlesCreate, hdup]

/-- C9 (witness): article "Shared Title" by {"A. Doe", "B. Roe"} exists; a
create with the same title and the different-but-overlapping author set
{"B. Roe", "C. Poe"} is rejected as a duplicate. -/
theorem c9_witness :
    articlesCreate dbTwoAuth fdOverlap "2026-01-02" 1 false
      = (.error .duplicateArticle, dbTwoAuth) :=
  c9_title_and_single_author_overlap_rejected dbTwoAuth fdOverlap "2026-01-02" 1 false
    (mkArticleRow fdTwoAuth "0001" (createFileName "0001" "Shared Title") "2026-01-01" 0)
    "B. Roe" (by decide) (by decide) (by decide) (by decide)

/-- C2 (amended): the article-row insert and its entity links run inside a
single transaction, but the identifier allocation runs in its own prior
committed transaction.  A create that fails inside the insert transaction
(injected store failure) therefore returns with everything rolled back —
articles, entities and links exactly as before — except the identifier
counter, which stays advanced: a consumed identifier with no article row. -/
theorem c2_failed_create_leaves_consumed_id (db : DB) (fd : ArticleFormData)
    (today : String) (now : Time)
    (hdup : duplicateExists db fd.title fd.authors = false) :
    articlesCreate db fd today now true
      = (.error (.storeFailure "disk I/O error"),
         { db with idCounter := (getNextArticleIdNum db.idCounter).2 }) := by
  simp [articlesCreate, hdup, createTxn, getNextArticleId]

/-- C2 (witness): a fresh library, a create failing mid-transaction: the
error is reported and the only change is the counter moving from 1 to 2. -/
theorem c2_witness :
    articlesCreate emptyDB fdFooBar "2026-01-01" 0 true
      = (.error (.storeFailure "disk I/O error"),
         { emptyDB with idCounter := some 2 }) :=
  c2_failed_create_leaves_consumed_id emptyDB fdFooBar "2026-01-01" 0 (by decide)

/-- C2 (counterexample): the claim says a failed create leaves the old
consistent state, with no consumed identifier lacking an article row.  On a
fresh library, a create that fails inside the insert transaction leaves a
state different from the old one: the counter was advanced to 2 (identifier
1 is consumed) while no article row exists. -/
theorem c2_counterexample :
    (articlesCreate emptyDB fdFooBar "2026-01-01" 0 true).1
        = .error (.storeFailure "disk I/O error")
    ∧ (articlesCreate emptyDB fdFooBar "2026-01-01" 0 true).2 ≠ emptyDB
    ∧ (articlesCreate emptyDB fdFooBar "2026-01-01" 0 true).2.idCounter = some 2
    ∧ (articlesCreate emptyDB fdFooBar "2026-01-01" 0 true).2.articles = [] := by
  decide

theorem digitChar_decode (d : Nat) (h : d < 10) : (Nat.digitChar d).toNat - 48 = d := by
  interval_cases d <;> rfl

theorem toDigitsCore_foldl_decode : ∀ (fuel : Nat), 0 < fuel → ∀ (n : Nat), n < 10 ^ fuel →
    ∀ (ds : List Char) (a : Nat),
    (Nat.toDigitsCore 10 fuel n ds).foldl (fun x c => x * 10 + (c.toNat - 48)) a
      = ds.foldl (fun x c => x * 10 + (c.toNat - 48)) (pushDigits a n) := by
  intro fuel
  induction fuel with
  | zero => intro h; exact absurd h (by omega)
  | succ f ih =>
    intro _ n hn ds a
    simp only [Nat.toDigitsCore]
    by_cases h0 : n / 10 = 0
    · have hn10 : n < 10 := by omega
      rw [if_pos h0, List.foldl_cons]
      have hmod : n % 10 = n := Nat.mod_eq_of_lt hn10
      have hstep : a * 10 + ((Nat.digitChar (n % 10)).toNat - 48) = pushDigits a n := by
        rw [hmod, digitChar_decode n hn10, pushDigits, if_pos hn10]
      rw [hstep]
    · rw [if_neg h0]
      have hf0 : 0 < f := by
        by_contra hc
        have hf : f = 0 := by omega
        subst hf
        simp at hn
        omega
      have hdiv : n / 10 < 10 ^ f := by
        rw [Nat.div_lt_iff_lt_mul (by omega : (0:Nat) < 10)]
        calc n < 10 ^ (f + 1) := hn
          _ = 10 ^ f * 10 := by ring
      rw [ih hf0 (n / 10) hdiv, List.foldl_cons]
      have hm : n % 10 < 10 := Nat.mod_lt _ (by omega)
      have hstep : pushDigits a (n / 10) * 10 + ((Nat.digitChar (n % 10)).toNat - 48)
          = pushDigits a n := by
        rw [digitChar_decode _ hm]
        conv_rhs => rw [pushDigits]
        rw [if_neg (by omega : ¬ n < 10)]
      rw [hstep]

theorem pushDigits_zero : ∀ n, pushDigits 0 n = n := by
  intro n
  induction n using Nat.strong_induction_on with
  | _ n ih =>
    rw [pushDigits]
    by_cases h : n < 10
    · rw [if_pos h]
      omega
    · rw [if_neg h]
      rw [ih (n / 10) (Nat.div_lt_self (by omega) (by omega))]
      omega

theorem decodeStr_toString (n : Nat) : decodeStr (toString n) = n := by
  show (Nat.toDigits 10 n).foldl (fun x c => x * 10 + (c.toNat - 48)) 0 = n
  have hb : n < 10 ^ (n + 1) := by
    calc n < 2 ^ n := Nat.lt_two_pow n
      _ ≤ 10 ^ n := Nat.pow_le_pow_left (by omega) n
      _ ≤ 10 ^ (n + 1) := Nat.pow_le_pow_right (by omega) (by omega)
  unfold Nat.toDigits
  rw [toDigitsCore_foldl_decode (n + 1) (by omega) n hb [] 0]
  simp [pushDigits_zero]

theorem decodeStr_padId (n : Nat) : decodeStr (padId n) = n := by
  show (List.replicate (4 - (toString n).length) '0' ++ (toString n).data).foldl
      (fun x c => x * 10 + (c.toNat - 48)) 0 = n
  rw [List.foldl_append]
  have hz : ∀ k, (List.replicate k '0').foldl (fun x c => x * 10 + (c.toNat - 48)) 0 = 0 := by
    intro k
    induction k with
    | zero => rfl
    | succ k ih =>
      rw [List.replicate_succ, List.foldl_cons]
      simpa using ih
  rw [hz]
  exact decodeStr_toString n

theorem padId_injective : Function.Injective padId := by
  intro m n h
  have hm := decodeStr_padId m
  rw [h, decodeStr_padId] at hm
  exact hm.symm

theorem createTxn_ok_idCounter {db1 : DB} {fd : ArticleFormData}
    {idStr fileName today : String} {now : Time} {insertFails : Bool} {db2 : DB}
    (h : createTxn db1 fd idStr fileName today now insertFails = .ok db2) :
    db2.idCounter = db1.idCounter := by
  simp only [createTxn] at h
  repeat' split at h
  any_goals exact Except.noConfusion h
  injection h with h2
  subst h2
  rfl

theorem applyOp_create_idCounter {db : DB} {fd : ArticleFormData} {today : String}
    {now : Time} {insertFails : Bool}
    (hdup : duplicateExists db fd.title fd.authors = false) :
    (applyOp db (.create fd today now insertFails)).idCounter
      = some ((getNextArticleIdNum db.idCounter).1 + 1) := by
  show (articlesCreate db fd today now insertFails).2.idCounter = _
  unfold articlesCreate
  simp only [hdup, Bool.false_eq_true, if_false]
  split
  · cases hdb : db.idCounter <;> simp [getNextArticleId, getNextArticleIdNum, hdb]
  · next db2 heq =>
    rw [createTxn_ok_idCounter heq]
    cases hdb : db.idCounter <;> simp [getNextArticleId, getNextArticleIdNum, hdb]

theorem applyOp_counterLow_mono (db : DB) (op : Op) :
    counterLow db.idCounter ≤ counterLow (applyOp db op).idCounter := by
  cases op with
  | delete aid => exact Nat.le_refl _
  | create fd today now fails =>
    by_cases hdup : duplicateExists db fd.title fd.authors = true
    · have : applyOp db (.create fd today now fails) = db := by
        simp [applyOp, articlesCreate, hdup]
      rw [this]
    · have hd : duplicateExists db fd.title fd.authors = false := by
        revert hdup
        cases duplicateExists db fd.title fd.authors <;> simp
      rw [@applyOp_create_idCounter db fd today now fails hd]
      cases hdb : db.idCounter <;> simp [counterLow, getNextArticleIdNum]

theorem counterLow_le_of_mem_runAllocNums :
    ∀ (ops : List Op) (db : DB) (x : Nat), x ∈ runAllocNums db ops →
      counterLow db.idCounter ≤ x := by
  intro ops
  induction ops with
  | nil =>
    intro db x hx
    simp [runAllocNums] at hx
  | cons op rest ih =>
    intro db x hx
    rw [runAllocNums] at hx
    rcases List.mem_append.mp hx with h1 | h2
    · cases op with
      | delete aid => simp [opAllocNums] at h1
      | create fd today now fails =>
        by_cases hdup : duplicateExists db fd.title fd.authors = true
        · simp [opAllocNums, hdup] at h1
        · have hd : duplicateExists db fd.title fd.authors = false := by
            revert hdup
            cases duplicateExists db fd.title fd.authors <;> simp
          simp [opAllocNums, hd] at h1
          subst h1
          cases hdb : db.idCounter <;> simp [counterLow, getNextArticleIdNum]
    · calc counterLow db.idCounter
          ≤ counterLow (applyOp db op).idCounter := applyOp_counterLow_mono db op
        _ ≤ x := ih (applyOp db op) x h2

theorem runAllocNums_pairwise : ∀ (ops : List Op) (db : DB),
    (runAllocNums db ops).Pairwise (· < ·) := by
  intro ops
  induction ops with
  | nil =>
    intro db
    simp [runAllocNums]
  | cons op rest ih =>
    intro db
    rw [runAllocNums, List.pairwise_append]
    refine ⟨?_, ih (applyOp db op), ?_⟩
    · cases op with
      | delete aid => simp [opAllocNums]
      | create fd today now fails => simp [opAllocNums]; split <;> simp
    · intro x hx y hy
      cases op with
      | delete aid => simp [opAllocNums] at hx
      | create fd today now fails =>
        by_cases hdup : duplicateExists db fd.title fd.authors = true
        · simp [opAllocNums, hdup] at hx
        · have hd : duplicateExists db fd.title fd.authors = false := by
            revert hdup
            cases duplicateExists db fd.title fd.authors <;> simp
          simp [opAllocNums, hd] at hx
          subst hx
          have hy2 := counterLow_le_of_mem_runAllocNums rest
            (applyOp db (.create fd today now fails)) y hy
          rw [@applyOp_create_idCounter db fd today now fails hd] at hy2
          simp [counterLow] at hy2
          omega

theorem runAllocs_eq_map (ops : List Op) : ∀ (db : DB),
    runAllocs db ops = (runAllocNums db ops).map padId := by
  induction ops with
  | nil => intro db; rfl
  | cons op rest ih =>
    intro db
    rw [runAllocs, runAllocNums, List.map_append, ih (applyOp db op)]
    congr 1
    cases op with
    | delete aid => rfl
    | create fd today now fails =>
      rw [opAllocs, opAllocNums]
      by_cases hdup : duplicateExists db fd.title fd.authors = true <;>
        simp [hdup, getNextArticleId]

/-- C1: across any sequence of create and delete operations, from any
starting database state, the identifiers returned by the allocator during
the creates are strictly increasing in their numeric value and no
identifier string is ever returned twice — delete operations never touch
the counter, so removing an article bearing an earlier identifier cannot
cause reuse. -/
theorem c1_identifiers_strictly_increasing_never_reused (db : DB) (ops : List Op) :
    (runAllocs db ops).Pairwise (fun s t => decodeStr s < decodeStr t)
    ∧ (runAllocs db ops).Nodup := by
  have hnum := runAllocNums_pairwise ops db
  rw [runAllocs_eq_map ops db]
  constructor
  · rw [List.pairwise_map]
    refine hnum.imp ?_
    intro a b hab
    simpa [decodeStr_padId] using hab
  · exact List.Nodup.map padId_injective (hnum.imp (fun hab => Nat.ne_of_lt hab))

end ArticleManager
